import Mathlib

/-!
Verification development for the RingPing ringtone server
(apps/server/src/routers/ringtone.ts and its variants).

The TypeScript handlers are embedded shallowly: subprocess and filesystem
effects are driven by an explicit environment record, the database is a list
of rows, and JavaScript numbers appearing in validated inputs are modelled
as rationals so that the zod int checks are meaningful.
-/

set_option maxRecDepth 4000

/-- Decimal digit character, as produced by JavaScript number-to-string
conversion of a nonnegative integer (one digit position). -/
def digitChar : Nat → Char
  | 0 => '0'
  | 1 => '1'
  | 2 => '2'
  | 3 => '3'
  | 4 => '4'
  | 5 => '5'
  | 6 => '6'
  | 7 => '7'
  | 8 => '8'
  | 9 => '9'
  | _ => '*'

/-- Numeric value of a digit character. -/
def digitVal (c : Char) : Nat := c.toNat - 48

/-- Fuel-driven accumulator loop producing the decimal digits of a natural
number, most significant first. Models the decimal rendering that the
template literal of the source performs on a nonnegative integer. -/
def natToStringCore : Nat → Nat → List Char → List Char
  | 0, _, acc => acc
  | fuel + 1, n, acc =>
    if n < 10 then digitChar (n % 10) :: acc
    else natToStringCore fuel (n / 10) (digitChar (n % 10) :: acc)

/-- Decimal digit list of a natural number. -/
def natDigits (n : Nat) : List Char := natToStringCore (n + 1) n []

/-- Model of JavaScript decimal rendering of a nonnegative integer. -/
def natToString (n : Nat) : String := String.mk (natDigits n)

/-- Value of a digit list read most significant first. -/
def charListVal (l : List Char) : Nat :=
  l.foldl (fun a c => a * 10 + digitVal c) 0

theorem digitVal_digitChar (d : Nat) (h : d < 10) : digitVal (digitChar d) = d := by
  interval_cases d <;> decide

theorem digitChar_toLower (d : Nat) : Char.toLower (digitChar d) = digitChar d := by
  unfold digitChar
  split <;> decide

theorem natToStringCore_acc (fuel : Nat) :
    ∀ n acc, natToStringCore fuel n acc = natToStringCore fuel n [] ++ acc := by
  induction fuel with
  | zero => intro n acc; simp [natToStringCore]
  | succ fuel ih =>
    intro n acc
    by_cases h : n < 10
    · simp [natToStringCore, h]
    · simp only [natToStringCore, if_neg h]
      rw [ih (n / 10) (digitChar (n % 10) :: acc), ih (n / 10) [digitChar (n % 10)]]
      simp

theorem natToStringCore_fuel (n : Nat) :
    ∀ f g, 0 < f → 0 < g → n < 10 ^ f → n < 10 ^ g →
      natToStringCore f n [] = natToStringCore g n [] := by
  induction n using Nat.strong_induction_on with
  | _ n ih =>
    intro f g hf hg hnf hng
    obtain ⟨f, rfl⟩ := Nat.exists_eq_succ_of_ne_zero (Nat.pos_iff_ne_zero.mp hf)
    obtain ⟨g, rfl⟩ := Nat.exists_eq_succ_of_ne_zero (Nat.pos_iff_ne_zero.mp hg)
    by_cases h : n < 10
    · simp [natToStringCore, h]
    · have hf' : 0 < f := by
        rcases Nat.eq_zero_or_pos f with hf0 | hf0
        · subst hf0; simp at hnf; omega
        · exact hf0
      have hg' : 0 < g := by
        rcases Nat.eq_zero_or_pos g with hg0 | hg0
        · subst hg0; simp at hng; omega
        · exact hg0
      have hdivf : n / 10 < 10 ^ f := by
        rw [Nat.div_lt_iff_lt_mul (by norm_num)]
        calc n < 10 ^ (f + 1) := hnf
          _ = 10 ^ f * 10 := by rw [pow_succ]
      have hdivg : n / 10 < 10 ^ g := by
        rw [Nat.div_lt_iff_lt_mul (by norm_num)]
        calc n < 10 ^ (g + 1) := hng
          _ = 10 ^ g * 10 := by rw [pow_succ]
      have hlt : n / 10 < n := Nat.div_lt_self (by omega) (by norm_num)
      simp only [natToStringCore, if_neg h]
      rw [natToStringCore_acc f (n / 10) [digitChar (n % 10)],
        natToStringCore_acc g (n / 10) [digitChar (n % 10)],
        ih (n / 10) hlt f g hf' hg' hdivf hdivg]

theorem natDigits_small (n : Nat) (h : n < 10) : natDigits n = [digitChar n] := by
  simp [natDigits, natToStringCore, h, Nat.mod_eq_of_lt h]

theorem natDigits_decomp (n : Nat) (h : 10 ≤ n) :
    natDigits n = natDigits (n / 10) ++ [digitChar (n % 10)] := by
  have hn10 : ¬ n < 10 := by omega
  have h1 : natDigits n = natToStringCore n (n / 10) [digitChar (n % 10)] := by
    simp [natDigits, natToStringCore, hn10]
  rw [h1, natToStringCore_acc]
  congr 1
  apply natToStringCore_fuel
  · omega
  · omega
  · calc n / 10 ≤ n := Nat.div_le_self n 10
      _ < 10 ^ n := Nat.lt_pow_self (by norm_num) n
  · calc n / 10 < 10 ^ (n / 10) := Nat.lt_pow_self (by norm_num) (n / 10)
      _ ≤ 10 ^ (n / 10 + 1) := Nat.pow_le_pow_right (by norm_num) (Nat.le_succ _)

theorem charListVal_natDigits (n : Nat) : charListVal (natDigits n) = n := by
  induction n using Nat.strong_induction_on with
  | _ n ih =>
    by_cases h : n < 10
    · rw [natDigits_small n h]
      simp [charListVal, digitVal_digitChar n h]
    · have h10 : 10 ≤ n := by omega
      rw [natDigits_decomp n h10]
      have hlt : n / 10 < n := Nat.div_lt_self (by omega) (by norm_num)
      simp only [charListVal, List.foldl_append] at *
      rw [ih (n / 10) hlt]
      simp [List.foldl, digitVal_digitChar (n % 10) (Nat.mod_lt n (by norm_num))]
      omega

theorem natDigits_injective : Function.Injective natDigits := by
  intro a b h
  have := congrArg charListVal h
  rwa [charListVal_natDigits, charListVal_natDigits] at this

theorem natToString_injective : Function.Injective natToString := by
  intro a b h
  exact natDigits_injective (congrArg String.data h)

theorem natToStringCore_toLower (fuel : Nat) :
    ∀ n acc, (∀ c ∈ acc, Char.toLower c = c) →
      ∀ c ∈ natToStringCore fuel n acc, Char.toLower c = c := by
  induction fuel with
  | zero => intro n acc hacc c hc; exact hacc c hc
  | succ fuel ih =>
    intro n acc hacc c hc
    by_cases h : n < 10
    · simp only [natToStringCore, if_pos h] at hc
      rcases List.mem_cons.mp hc with rfl | hmem
      · exact digitChar_toLower (n % 10)
      · exact hacc c hmem
    · simp only [natToStringCore, if_neg h] at hc
      refine ih (n / 10) (digitChar (n % 10) :: acc) ?_ c hc
      intro d hd
      rcases List.mem_cons.mp hd with rfl | hmem
      · exact digitChar_toLower (n % 10)
      · exact hacc d hmem

theorem natDigits_toLower (n : Nat) : ∀ c ∈ natDigits n, Char.toLower c = c :=
  natToStringCore_toLower (n + 1) n [] (by intro c hc; simp at hc)

/-- Model of the JavaScript toLowerCase call used for the case-insensitive
filename comparison (ASCII lowering, applied character by character). -/
def jsToLower (s : String) : String := String.mk (s.data.map Char.toLower)

theorem jsToLower_data (s : String) :
    (jsToLower s).data = s.data.map Char.toLower := rfl

theorem string_data_append (a b : String) : (a ++ b).data = a.data ++ b.data := by
  cases a; cases b; rfl

theorem string_append_assoc (a b c : String) : a ++ b ++ c = a ++ (b ++ c) := by
  cases a; cases b; cases c
  apply congrArg String.mk
  simp

/-- The candidate name built by the collision loop of generateUniqueFileName
(part_011): the template literal appending a space and the counter. -/
def uniqueCandidate (baseName : String) (k : Nat) : String :=
  baseName ++ " " ++ natToString k

theorem map_toLower_fixed (l : List Char) (h : ∀ c ∈ l, Char.toLower c = c) :
    l.map Char.toLower = l := by
  induction l with
  | nil => rfl
  | cons c l ih =>
    simp only [List.map_cons]
    rw [h c (List.mem_cons_self c l), ih (fun d hd => h d (List.mem_cons_of_mem c hd))]

theorem jsToLower_uniqueCandidate_data (base : String) (k : Nat) :
    (jsToLower (uniqueCandidate base k)).data =
      base.data.map Char.toLower ++ (' ' :: natDigits k) := by
  rw [jsToLower_data]
  show ((base ++ " " ++ natToString k).data).map Char.toLower = _
  rw [string_data_append, string_data_append]
  rw [List.map_append, List.map_append]
  rw [map_toLower_fixed (natToString k).data (natDigits_toLower k)]
  show base.data.map Char.toLower ++ [' '].map Char.toLower ++ natDigits k = _
  simp

theorem jsToLower_uniqueCandidate_injective (base : String) :
    Function.Injective fun k => jsToLower (uniqueCandidate base k) := by
  intro j k h
  have hd := congrArg String.data h
  rw [jsToLower_uniqueCandidate_data, jsToLower_uniqueCandidate_data] at hd
  have h2 := List.append_cancel_left hd
  have h3 : natDigits j = natDigits k := by
    injection h2
  exact natDigits_injective h3

/-- The while loop of generateUniqueFileName (part_011), with explicit fuel:
starting from a counter, return the first candidate whose lowering is not in
the set of lowered existing names. The fuel passed by generateUniqueFileName
always suffices (see probeName_spec and exists_free_candidate). -/
def probeName (baseName : String) (existingSet : List String) : Nat → Nat → String
  | counter, 0 => uniqueCandidate baseName counter
  | counter, fuel + 1 =>
    if jsToLower (uniqueCandidate baseName counter) ∈ existingSet then
      probeName baseName existingSet (counter + 1) fuel
    else uniqueCandidate baseName counter

/-- Embedding of generateUniqueFileName from part_011: if the lowered base
name is absent from the lowered existing names, return it unchanged;
otherwise probe `base 1`, `base 2`, ... until a free candidate is found. -/
def generateUniqueFileName (baseName : String) (existingNames : List String) : String :=
  let existingSet := existingNames.map jsToLower
  if jsToLower baseName ∈ existingSet then
    probeName baseName existingSet 1 (existingSet.length + 1)
  else baseName

theorem probeName_spec (base : String) (set : List String) :
    ∀ fuel counter,
      (∃ j, j ≤ fuel ∧ jsToLower (uniqueCandidate base (counter + j)) ∉ set) →
      ∃ k, counter ≤ k ∧ probeName base set counter fuel = uniqueCandidate base k ∧
        jsToLower (uniqueCandidate base k) ∉ set ∧
        ∀ i, counter ≤ i → i < k → jsToLower (uniqueCandidate base i) ∈ set := by
  intro fuel
  induction fuel with
  | zero =>
    intro counter ⟨j, hj, hfree⟩
    have hj0 : j = 0 := Nat.le_zero.mp hj
    subst hj0
    refine ⟨counter, le_refl _, rfl, by simpa using hfree, ?_⟩
    intro i h1 h2
    omega
  | succ fuel ih =>
    intro counter ⟨j, hj, hfree⟩
    by_cases hmem : jsToLower (uniqueCandidate base counter) ∈ set
    · have hj0 : j ≠ 0 := by
        intro h0
        subst h0
        simp at hfree
        exact hfree hmem
      obtain ⟨j', rfl⟩ := Nat.exists_eq_succ_of_ne_zero hj0
      have hrec : ∃ j, j ≤ fuel ∧
          jsToLower (uniqueCandidate base (counter + 1 + j)) ∉ set := by
        refine ⟨j', by omega, ?_⟩
        have : counter + 1 + j' = counter + (j' + 1) := by omega
        rw [this]
        exact hfree
      obtain ⟨k, hk1, hk2, hk3, hk4⟩ := ih (counter + 1) hrec
      refine ⟨k, by omega, ?_, hk3, ?_⟩
      · simp only [probeName, if_pos hmem]
        exact hk2
      · intro i h1 h2
        rcases Nat.eq_or_lt_of_le h1 with rfl | hlt
        · exact hmem
        · exact hk4 i hlt h2
    · refine ⟨counter, le_refl _, ?_, hmem, ?_⟩
      · simp [probeName, hmem]
      · intro i h1 h2
        omega

theorem exists_free_candidate (base : String) (set : List String) (counter : Nat) :
    ∃ j, j ≤ set.length ∧
      jsToLower (uniqueCandidate base (counter + j)) ∉ set := by
  by_contra hall
  push_neg at hall
  set cands : List String :=
    (List.range (set.length + 1)).map
      (fun j => jsToLower (uniqueCandidate base (counter + j))) with hcands
  have hnodup : cands.Nodup := by
    refine List.Nodup.map ?_ (List.nodup_range _)
    intro a b hab
    have := jsToLower_uniqueCandidate_injective base hab
    omega
  have hsub : cands ⊆ set := by
    intro x hx
    rw [hcands] at hx
    obtain ⟨j, hj, rfl⟩ := List.mem_map.mp hx
    have hj' : j ≤ set.length := by
      have := List.mem_range.mp hj
      omega
    exact hall j hj'
  have hlen : cands.length ≤ set.length :=
    (List.subperm_of_subset hnodup hsub).length_le
  rw [hcands] at hlen
  simp at hlen

theorem generateUniqueFileName_no_collision (base : String) (names : List String)
    (h : jsToLower base ∉ names.map jsToLower) :
    generateUniqueFileName base names = base := by
  simp [generateUniqueFileName, h]

theorem generateUniqueFileName_collision (base : String) (names : List String)
    (h : jsToLower base ∈ names.map jsToLower) :
    ∃ k, 1 ≤ k ∧
      generateUniqueFileName base names = uniqueCandidate base k ∧
      jsToLower (uniqueCandidate base k) ∉ names.map jsToLower ∧
      ∀ j, 1 ≤ j → j < k →
        jsToLower (uniqueCandidate base j) ∈ names.map jsToLower := by
  set set := names.map jsToLower with hset
  obtain ⟨j, hj, hfree⟩ := exists_free_candidate base set 1
  have hspec := probeName_spec base set (set.length + 1) 1 ⟨j, by omega, hfree⟩
  obtain ⟨k, hk1, hk2, hk3, hk4⟩ := hspec
  refine ⟨k, hk1, ?_, hk3, hk4⟩
  simp only [generateUniqueFileName, ← hset, if_pos h]
  exact hk2

theorem generateUniqueFileName_free (base : String) (names : List String) :
    jsToLower (generateUniqueFileName base names) ∉ names.map jsToLower := by
  by_cases h : jsToLower base ∈ names.map jsToLower
  · obtain ⟨k, _, heq, hfree, _⟩ := generateUniqueFileName_collision base names h
    rw [heq]
    exact hfree
  · rw [generateUniqueFileName_no_collision base names h]
    exact h

theorem generateUniqueFileName_ne_existing (base : String) (names : List String)
    (s : String) (hs : s ∈ names) :
    generateUniqueFileName base names ≠ s := by
  intro heq
  exact generateUniqueFileName_free base names
    (heq ▸ List.mem_map_of_mem jsToLower hs)

/-- Error kinds of the server, mirroring the ORPCError codes raised by the
router together with the zod validation failures (which carry the offending
field). -/
inductive RtError where
  | validation (field : String) (msg : String)
  | badRequest (msg : String)
  | notFound (msg : String)
  | forbidden (msg : String)
  | internal (msg : String)
  deriving DecidableEq, Repr

/-- True for the error kinds that a client can correct: a zod validation
failure naming a field, or a BAD_REQUEST raised by the handler checks. -/
def RtError.isClientError : RtError → Bool
  | .validation _ _ => true
  | .badRequest _ => true
  | _ => false

/-- A row of the ringtone table (db/schema/ringtone.ts). Time columns hold
the JavaScript numbers inserted by the handler, modelled as rationals;
timestamps are abstract ticks. -/
structure RingtoneRow where
  id : String
  fileName : String
  originalUrl : String
  startTime : Rat
  endTime : Rat
  downloadUrl : String
  audioFormat : String
  audioQuality : String
  userId : String
  createdAt : Nat
  updatedAt : Nat
  deriving DecidableEq, Repr

/-- One Bun.spawn invocation: the argument vector and the option record that
the source passes (stdout and stderr piped; no timeout option is present in
the source, hence the field is the none of the option type). -/
structure SpawnCall where
  argv : List String
  stdoutPipe : Bool
  stderrPipe : Bool
  timeout : Option Nat
  deriving DecidableEq, Repr

/-- The spawn option record used at every call site of the router:
stdout piped, stderr piped, and no timeout. -/
def pipedSpawn (argv : List String) : SpawnCall :=
  { argv := argv, stdoutPipe := true, stderrPipe := true, timeout := none }

/-- Input of the create endpoint of apps/server/src/routers/ringtone.ts. -/
structure CreateInput where
  url : String
  startSeconds : Rat
  durationSeconds : Rat
  fileName : String
  videoDuration : Option Rat
  deriving DecidableEq, Repr

/-- Whether the first list is an initial segment of the second. -/
def charsStart : List Char → List Char → Bool
  | [], _ => true
  | _ :: _, [] => false
  | a :: as, b :: bs => a == b && charsStart as bs

/-- Simple model of the zod z.url check: an absolute http or https URL with
a nonempty remainder. -/
def isValidUrl (s : String) : Bool :=
  (charsStart "http://".data s.data && s.length > 7) ||
  (charsStart "https://".data s.data && s.length > 8)

/-- Rational addition, written out on numerators and denominators; equal to
the addition of the rational numbers (ratAdd_eq_add) and kept in this
normalized form so that concrete runs of the model reduce. -/
def ratAdd (a b : Rat) : Rat :=
  mkRat (a.num * b.den + b.num * a.den) (a.den * b.den)

theorem ratAdd_eq_add (a b : Rat) : ratAdd a b = a + b := by
  have ha : ((a.den : Rat)) ≠ 0 := by
    exact_mod_cast a.den_nz
  have hb : ((b.den : Rat)) ≠ 0 := by
    exact_mod_cast b.den_nz
  unfold ratAdd
  rw [Rat.mkRat_eq_div]
  push_cast
  conv_rhs => rw [← Rat.num_div_den a, ← Rat.num_div_den b]
  rw [div_add_div _ _ ha hb]
  congr 1
  ring

/-- zod check of the url field. -/
def checkUrl (u : String) : Option RtError :=
  if isValidUrl u then none
  else some (.validation "url" "Please enter a valid URL")

/-- zod check of startSeconds: z.number().int().min(0). The int refinement
is rational-denominator one. -/
def checkStartSeconds (q : Rat) : Option RtError :=
  if q.den ≠ 1 then some (.validation "startSeconds" "Expected integer")
  else if q < 0 then some (.validation "startSeconds" "Start time must be 0 or greater")
  else none

/-- zod check of durationSeconds: z.number().int().min(5).max(60). -/
def checkDurationSeconds (q : Rat) : Option RtError :=
  if q.den ≠ 1 then some (.validation "durationSeconds" "Expected integer")
  else if q < 5 then some (.validation "durationSeconds" "Duration must be at least 5 seconds")
  else if 60 < q then some (.validation "durationSeconds" "Duration cannot exceed 60 seconds")
  else none

/-- zod check of fileName on the server: z.string().min(1).max(50). Note
that the server schema carries no character-class refinement. -/
def checkFileNameLength (s : String) : Option RtError :=
  if s.length < 1 then some (.validation "fileName" "File name is required")
  else if 50 < s.length then some (.validation "fileName" "File name too long")
  else none

/-- The create input schema of the main router, checking the fields in
declaration order and reporting the first failing field. -/
def validateCreate (i : CreateInput) : Option RtError :=
  match checkUrl i.url with
  | some e => some e
  | none =>
    match checkStartSeconds i.startSeconds with
    | some e => some e
    | none =>
      match checkDurationSeconds i.durationSeconds with
      | some e => some e
      | none => checkFileNameLength i.fileName

/-- JavaScript truthiness guard of the first videoDuration check:
videoDuration is truthy (supplied and nonzero) and endSeconds exceeds it. -/
def vdTruthyEndGt (vd : Option Rat) (endSeconds : Rat) : Bool :=
  match vd with
  | none => false
  | some d => decide (d ≠ 0) && decide (d < endSeconds)

/-- JavaScript truthiness guard of the second videoDuration check:
videoDuration is truthy and startSeconds is at least it. -/
def vdTruthyStartGe (vd : Option Rat) (startSeconds : Rat) : Bool :=
  match vd with
  | none => false
  | some d => decide (d ≠ 0) && decide (d ≤ startSeconds)

/-- Filesystem model: the set of paths currently present, as a list. -/
def fsAdd (files : List String) (p : String) : List String :=
  if p ∈ files then files else p :: files

/-- fs.unlink: remove a path (removing a missing path leaves the list as
is; the call sites that care wrap the throwing call in try/catch). -/
def fsRemove (files : List String) (p : String) : List String :=
  files.filter (fun q => q ≠ p)

theorem mem_fsAdd_self (files : List String) (p : String) : p ∈ fsAdd files p := by
  by_cases h : p ∈ files <;> simp [fsAdd, h]

theorem not_mem_fsRemove_self (files : List String) (p : String) :
    p ∉ fsRemove files p := by
  simp [fsRemove]

/-- path.join(process.cwd(), "public", "downloads", userId, fileName.mp3),
relative to the working directory. -/
def outputPathOf (userId fileName : String) : String :=
  "public/downloads/" ++ userId ++ "/" ++ fileName ++ ".mp3"

/-- outputPath.replace of the .mp3 suffix by .trimmed.mp3. -/
def trimmedPathOf (userId fileName : String) : String :=
  "public/downloads/" ++ userId ++ "/" ++ fileName ++ ".trimmed.mp3"

/-- The relative download URL returned to the client. -/
def downloadUrlOf (userId fileName : String) : String :=
  "/downloads/" ++ userId ++ "/" ++ fileName ++ ".mp3"

/-- path.join(process.cwd(), "public", downloadUrl) used by delete; the
download URL starts with a slash, so the join concatenates. -/
def deleteFilePathOf (downloadUrl : String) : String :=
  "public" ++ downloadUrl

/-- Two-digit zero padding of formatTime. -/
def pad2 (n : Nat) : String :=
  if n < 10 then "0" ++ natToString n else natToString n

/-- The formatTime helper of createRingtone: seconds to H:MM:SS. The inputs
at its call sites are validated nonnegative integers. -/
def formatTime (seconds : Rat) : String :=
  let t := seconds.floor.toNat
  natToString (t / 3600) ++ ":" ++ pad2 (t % 3600 / 60) ++ ":" ++ pad2 (t % 60)

/-- Decimal rendering of a validated nonnegative integral number, used for
the String(durationSeconds) argument of ffmpeg. -/
def jsNumArg (q : Rat) : String := natToString q.floor.toNat

/-- Argument vector of the yt-dlp extraction spawn in createRingtone. -/
def ytdlpArgs (startF endF outPath url : String) : List String :=
  ["yt-dlp", "-x", "--audio-format", "mp3", "--audio-quality", "192K",
   "--download-sections", "*" ++ startF ++ "-" ++ endF, "-o", outPath, url]

/-- Argument vector of the first ffprobe spawn in createRingtone. -/
def ffprobeArgs (outPath : String) : List String :=
  ["ffprobe", "-v", "quiet", "-print_format", "json", "-show_format",
   "-show_streams", outPath]

/-- Argument vector of the ffmpeg trim spawn in createRingtone. -/
def ffmpegArgs (outPath : String) (durationSeconds : Rat) (trimmedPath : String) :
    List String :=
  ["ffmpeg", "-y", "-i", outPath, "-ss", "0", "-t", jsNumArg durationSeconds,
   "-acodec", "copy", trimmedPath]

/-- Argument vector of the final ffprobe spawn in createRingtone. -/
def ffprobeFinalArgs (trimmedPath : String) : List String :=
  ["ffprobe", "-v", "quiet", "-print_format", "json", "-show_format", trimmedPath]

/-- Environment describing what the world outside the handler does during
one create request: the generated UUID, the clock, subprocess exit codes,
whether the tools wrote their output files, the observed file size, the
stderr text of the downloader, and whether the database insert succeeds. -/
structure CreateEnv where
  newId : String
  now : Nat
  ytExit : Nat
  ytWrites : Bool
  ytStderr : String
  outSize : Nat
  probeExit : Nat
  ffmpegExit : Nat
  ffmpegWroteTrimmedFile : Bool
  finalProbeExit : Nat
  insertOk : Bool
  deriving DecidableEq, Repr

instance {ε α : Type} [DecidableEq ε] [DecidableEq α] : DecidableEq (Except ε α) :=
  fun a b =>
    match a, b with
    | .ok x, .ok y => decidable_of_iff (x = y) (by simp)
    | .error x, .error y => decidable_of_iff (x = y) (by simp)
    | .ok _, .error _ => isFalse (by simp)
    | .error _, .ok _ => isFalse (by simp)

/-- Observable outcome of one create request: the response or error, the
files present afterwards, the row inserted (if any), the subprocess
invocations that took place, and whether the output directory was made. -/
structure CreateOutcome where
  result : Except RtError String
  files : List String
  inserted : Option RingtoneRow
  spawnCalls : List SpawnCall
  dirCreated : Bool
  deriving DecidableEq, Repr

/-- The generic error of the create catch block. The message is a constant
of the source; in particular it never contains the subprocess stderr. -/
def genericCreateError : RtError :=
  .internal "Failed to create ringtone. Check URL and try again."

/-- Embedding of createRingtone from apps/server/src/routers/ringtone.ts:
zod validation, the two truthiness-guarded videoDuration checks, mkdir,
the yt-dlp section download, the stat and empty-file check, the ffprobe
diagnostics, the ffmpeg trim, unlink plus rename, and the insert; any
throw lands in the catch block, which unlinks outputPath (only) and
raises the generic INTERNAL_SERVER_ERROR. -/
def createRingtone (input : CreateInput) (userId : String) (env : CreateEnv)
    (fs0 : List String) : CreateOutcome :=
  match validateCreate input with
  | some e =>
    { result := .error e, files := fs0, inserted := none,
      spawnCalls := [], dirCreated := false }
  | none =>
    let endSeconds := ratAdd input.startSeconds input.durationSeconds
    if vdTruthyEndGt input.videoDuration endSeconds then
      { result := .error (.badRequest "End time cannot exceed video duration"),
        files := fs0, inserted := none, spawnCalls := [], dirCreated := false }
    else if vdTruthyStartGe input.videoDuration input.startSeconds then
      { result := .error
          (.badRequest "Start time cannot be greater than or equal to video duration"),
        files := fs0, inserted := none, spawnCalls := [], dirCreated := false }
    else
      let outputPath := outputPathOf userId input.fileName
      let trimmedPath := trimmedPathOf userId input.fileName
      let downloadUrl := downloadUrlOf userId input.fileName
      let ytCall := pipedSpawn (ytdlpArgs (formatTime input.startSeconds)
        (formatTime endSeconds) outputPath input.url)
      let fs1 := if env.ytWrites then fsAdd fs0 outputPath else fs0
      if env.ytExit ≠ 0 then
        { result := .error genericCreateError, files := fsRemove fs1 outputPath,
          inserted := none, spawnCalls := [ytCall], dirCreated := true }
      else if outputPath ∉ fs1 then
        { result := .error genericCreateError, files := fsRemove fs1 outputPath,
          inserted := none, spawnCalls := [ytCall], dirCreated := true }
      else if env.outSize = 0 then
        { result := .error genericCreateError, files := fsRemove fs1 outputPath,
          inserted := none, spawnCalls := [ytCall], dirCreated := true }
      else
        let probeCall := pipedSpawn (ffprobeArgs outputPath)
        let ffmpegCall := pipedSpawn (ffmpegArgs outputPath input.durationSeconds trimmedPath)
        let fs2 := if env.ffmpegExit = 0 || env.ffmpegWroteTrimmedFile then
          fsAdd fs1 trimmedPath else fs1
        if env.ffmpegExit ≠ 0 then
          { result := .error genericCreateError, files := fsRemove fs2 outputPath,
            inserted := none, spawnCalls := [ytCall, probeCall, ffmpegCall],
            dirCreated := true }
        else
          let finalProbeCall := pipedSpawn (ffprobeFinalArgs trimmedPath)
          let fs3 := fsAdd (fsRemove (fsRemove fs2 outputPath) trimmedPath) outputPath
          let row : RingtoneRow :=
            { id := env.newId, fileName := input.fileName,
              originalUrl := input.url, startTime := input.startSeconds,
              endTime := endSeconds, downloadUrl := downloadUrl,
              audioFormat := "mp3", audioQuality := "192K", userId := userId,
              createdAt := env.now, updatedAt := env.now }
          if env.insertOk then
            { result := .ok downloadUrl, files := fs3, inserted := some row,
              spawnCalls := [ytCall, probeCall, ffmpegCall, finalProbeCall],
              dirCreated := true }
          else
            { result := .error genericCreateError, files := fsRemove fs3 outputPath,
              inserted := none,
              spawnCalls := [ytCall, probeCall, ffmpegCall, finalProbeCall],
              dirCreated := true }

/-- Parsed video metadata returned by getVideoInfo. -/
structure VideoInfo where
  title : String
  duration : Nat
  thumbnail : Option String
  uploader : String
  deriving DecidableEq, Repr

/-- Environment of one getVideoInfo request: exit code and captured output
of the metadata-only yt-dlp run. -/
structure InfoEnv where
  exitCode : Nat
  stdout : String
  stderr : String
  deriving DecidableEq, Repr

/-- Outcome of one getVideoInfo request. -/
structure InfoOutcome where
  result : Except RtError VideoInfo
  spawnCalls : List SpawnCall
  deriving DecidableEq, Repr

/-- Argument vector of the metadata-only yt-dlp spawn in getVideoInfo. -/
def ytdlpInfoArgs (url : String) : List String :=
  ["yt-dlp", "--print", "%(title)s", "--print", "%(duration)s",
   "--print", "%(uploader)s", "--print", "%(thumbnail)s", "--no-download", url]

/-- Model of Number.parseInt(s, 10) followed by the fallback to 0: value of
the leading digit prefix, 0 when there is none. -/
def jsParseIntOr0 (s : String) : Nat :=
  let ds := s.data.takeWhile (fun c => decide ('0' ≤ c) && decide (c ≤ '9'))
  if ds = [] then 0 else charListVal ds

/-- Embedding of getVideoInfo from apps/server/src/routers/ringtone.ts:
validate the URL, spawn yt-dlp in print mode with piped stdout and stderr,
map a non-zero exit to the coarse BAD_REQUEST error, and otherwise parse
the four newline-delimited fields with their fallbacks. -/
def getVideoInfo (url : String) (env : InfoEnv) : InfoOutcome :=
  match checkUrl url with
  | some e => { result := .error e, spawnCalls := [] }
  | none =>
    let call := pipedSpawn (ytdlpInfoArgs url)
    if env.exitCode ≠ 0 then
      { result := .error
          (.badRequest "Could not fetch video information. Please check the URL."),
        spawnCalls := [call] }
    else
      let lines := env.stdout.trim.splitOn "\n"
      let title := lines.getD 0 ""
      let durationStr := lines.getD 1 ""
      let uploader := lines.getD 2 ""
      let thumbnail := lines.getD 3 ""
      { result := .ok
          { title := if title = "" then "Unknown" else title,
            duration := jsParseIntOr0 durationStr,
            thumbnail := if thumbnail = "" then none else some thumbnail,
            uploader := if uploader = "" then "Unknown" else uploader },
        spawnCalls := [call] }

/-- Outcome of an update or delete request: the response or error and the
resulting database and filesystem. -/
structure MutateOutcome where
  result : Except RtError Bool
  db : List RingtoneRow
  files : List String
  deriving DecidableEq, Repr

/-- db.select().where(eq(ringtone.id, id)).limit(1): the first row whose id
matches. -/
def findRingtone (db : List RingtoneRow) (id : String) : Option RingtoneRow :=
  db.find? (fun r => r.id == id)

/-- Embedding of updateRingtone from apps/server/src/routers/ringtone.ts:
zod length checks on the new name, lookup by id (NOT_FOUND when absent),
owner check (FORBIDDEN on mismatch), then an update setting only fileName
and updatedAt on the matching rows. The filesystem is untouched: the
handler performs no file operation. -/
def updateRingtone (db : List RingtoneRow) (files : List String)
    (id fileName userId : String) (now : Nat) : MutateOutcome :=
  match checkFileNameLength fileName with
  | some e => { result := .error e, db := db, files := files }
  | none =>
    match findRingtone db id with
    | none =>
      { result := .error (.notFound "Ringtone not found"), db := db, files := files }
    | some r =>
      if r.userId ≠ userId then
        { result := .error (.forbidden "You can only update your own ringtones"),
          db := db, files := files }
      else
        { result := .ok true,
          db := db.map (fun row =>
            if row.id = id then
              { row with fileName := fileName, updatedAt := now }
            else row),
          files := files }

/-- Embedding of deleteRingtone from apps/server/src/routers/ringtone.ts:
lookup by id (NOT_FOUND when absent), owner check (FORBIDDEN on mismatch),
delete the row, then best-effort unlink of the backing file at the stored
download URL; an unlink failure is swallowed by the inner try/catch, so the
request still returns success. -/
def deleteRingtone (db : List RingtoneRow) (files : List String)
    (id userId : String) : MutateOutcome :=
  match findRingtone db id with
  | none =>
    { result := .error (.notFound "Ringtone not found"), db := db, files := files }
  | some r =>
    if r.userId ≠ userId then
      { result := .error (.forbidden "You can only delete your own ringtones"),
        db := db, files := files }
    else
      { result := .ok true,
        db := db.filter (fun row => row.id ≠ id),
        files := fsRemove files (deleteFilePathOf r.downloadUrl) }

/-- The invalid-character class of the client form schema (part_013):
the regex over the characters angle brackets, colon, double quote, slash,
backslash, pipe, question mark and asterisk. -/
def hasInvalidFileNameChar (s : String) : Bool :=
  s.data.any (fun c =>
    c = '<' || c = '>' || c = ':' || c = '"' || c = '/' ||
    c = '\\' || c = '|' || c = '?' || c = '*')

/-- Embedding of the fileName field of formSchema (part_013): min length 1,
max length 50, and the refine rejecting the invalid character class. -/
def formSchemaFileName (s : String) : Option RtError :=
  if s.length < 1 then some (.validation "fileName" "File name cannot be empty")
  else if 50 < s.length then some (.validation "fileName" "File name too long")
  else if hasInvalidFileNameChar s then
    some (.validation "fileName" "File name contains invalid characters")
  else none

/-- Input of the create endpoint of the part_011 router variant, which adds
audioFormat and audioQuality to the schema. -/
structure CreateInputV11 where
  url : String
  startSeconds : Rat
  durationSeconds : Rat
  fileName : String
  videoDuration : Option Rat
  audioFormat : String
  audioQuality : String
  deriving DecidableEq, Repr

/-- The audio format enumeration of part_011. -/
def audioFormats : List String :=
  ["mp3", "aac", "flac", "m4a", "opus", "vorbis", "wav"]

/-- The audio quality regex of part_011: one or more digits optionally
followed by K (the remaining alternatives of the regex are subsumed). -/
def audioQualityOk (s : String) : Bool :=
  let core := if s.data.getLast? == some 'K' then s.data.dropLast else s.data
  core.length > 0 && core.all (fun c => decide ('0' ≤ c) && decide (c ≤ '9'))

/-- The create input schema of the part_011 variant. -/
def validateCreateV11 (i : CreateInputV11) : Option RtError :=
  match checkUrl i.url with
  | some e => some e
  | none =>
    match checkStartSeconds i.startSeconds with
    | some e => some e
    | none =>
      match checkDurationSeconds i.durationSeconds with
      | some e => some e
      | none =>
        match checkFileNameLength i.fileName with
        | some e => some e
        | none =>
          if i.audioFormat ∉ audioFormats then
            some (.validation "audioFormat" "Invalid enum value")
          else if ¬ audioQualityOk i.audioQuality then
            some (.validation "audioQuality" "Invalid audio quality format")
          else none

/-- The filenames already stored for one owner, as read by the select of
generateUniqueFileName. -/
def ownerFileNames (db : List RingtoneRow) (userId : String) : List String :=
  (db.filter (fun r => r.userId = userId)).map (fun r => r.fileName)

/-- Outcome of one create request of the part_011 variant. -/
structure V11Outcome where
  result : Except RtError String
  db : List RingtoneRow
  files : List String
  spawnCalls : List SpawnCall
  deriving DecidableEq, Repr

/-- Embedding of createRingtone from the part_011 variant: after validation
and the truthiness-guarded duration checks, the stored filename is computed
by generateUniqueFileName against the owner's existing filenames; yt-dlp
downloads the section (a non-zero exit raises the generic error with no
cleanup in this variant), a failed ffmpeg trim is silently skipped, and the
row is then inserted with the unique filename. -/
def createRingtoneV11 (db : List RingtoneRow) (input : CreateInputV11)
    (userId : String) (env : CreateEnv) (fs0 : List String) : V11Outcome :=
  match validateCreateV11 input with
  | some e => { result := .error e, db := db, files := fs0, spawnCalls := [] }
  | none =>
    let endSeconds := ratAdd input.startSeconds input.durationSeconds
    if vdTruthyEndGt input.videoDuration endSeconds then
      { result := .error (.badRequest "End time cannot exceed video duration"),
        db := db, files := fs0, spawnCalls := [] }
    else if vdTruthyStartGe input.videoDuration input.startSeconds then
      { result := .error
          (.badRequest "Start time cannot be greater than or equal to video duration"),
        db := db, files := fs0, spawnCalls := [] }
    else
      let uniqueFileName := generateUniqueFileName input.fileName (ownerFileNames db userId)
      let outputPath := "public/downloads/" ++ userId ++ "/" ++ uniqueFileName
        ++ "." ++ input.audioFormat
      let trimmedPath := "public/downloads/" ++ userId ++ "/" ++ uniqueFileName
        ++ ".trimmed." ++ input.audioFormat
      let downloadUrl := "/downloads/" ++ userId ++ "/" ++ uniqueFileName
        ++ "." ++ input.audioFormat
      let ytCall := pipedSpawn
        ["yt-dlp", "-x", "--audio-format", input.audioFormat,
         "--audio-quality", input.audioQuality, "--download-sections",
         "*" ++ formatTime input.startSeconds ++ "-" ++ formatTime endSeconds,
         "-o", outputPath, input.url]
      let fs1 := if env.ytWrites then fsAdd fs0 outputPath else fs0
      if env.ytExit ≠ 0 then
        { result := .error genericCreateError, db := db, files := fs1,
          spawnCalls := [ytCall] }
      else
        let ffmpegCall := pipedSpawn
          (ffmpegArgs outputPath input.durationSeconds trimmedPath)
        let fs2 := if env.ffmpegExit = 0 || env.ffmpegWroteTrimmedFile then
          fsAdd fs1 trimmedPath else fs1
        let fs3 := if env.ffmpegExit = 0 then
          fsAdd (fsRemove (fsRemove fs2 outputPath) trimmedPath) outputPath else fs2
        let row : RingtoneRow :=
          { id := env.newId, fileName := uniqueFileName,
            originalUrl := input.url, startTime := input.startSeconds,
            endTime := endSeconds, downloadUrl := downloadUrl,
            audioFormat := input.audioFormat, audioQuality := input.audioQuality,
            userId := userId, createdAt := env.now, updatedAt := env.now }
        if env.insertOk then
          { result := .ok downloadUrl, db := row :: db, files := fs3,
            spawnCalls := [ytCall, ffmpegCall] }
        else
          { result := .error (.internal "insert failed"), db := db, files := fs3,
            spawnCalls := [ytCall, ffmpegCall] }

/-- One client-visible operation against the ringtone store of the main
router, with the environment that drives it. -/
inductive StoreOp where
  | create (input : CreateInput) (userId : String) (env : CreateEnv)
      (fs0 : List String)
  | update (id fileName userId : String) (now : Nat)
  | del (id userId : String)

/-- Effect of one operation on the database of the main router: create
inserts the produced row when the request succeeds, update and delete act
through their handlers. -/
def applyStoreOp (db : List RingtoneRow) : StoreOp → List RingtoneRow
  | .create input userId env fs0 =>
    match (createRingtone input userId env fs0).inserted with
    | some row => row :: db
    | none => db
  | .update id fileName userId now => (updateRingtone db [] id fileName userId now).db
  | .del id userId => (deleteRingtone db [] id userId).db

/-- The row invariant of the data model: end time after start time and a
duration between 5 and 60 seconds. -/
def rowOk (r : RingtoneRow) : Prop :=
  r.startTime < r.endTime ∧ 5 ≤ r.endTime - r.startTime ∧ r.endTime - r.startTime ≤ 60

instance (r : RingtoneRow) : Decidable (rowOk r) := by
  unfold rowOk
  infer_instance

theorem checkStartSeconds_none (q : Rat) :
    checkStartSeconds q = none ↔ (q.den = 1 ∧ 0 ≤ q) := by
  unfold checkStartSeconds
  split_ifs with h1 h2 <;> simp_all

theorem checkDurationSeconds_none (q : Rat) :
    checkDurationSeconds q = none ↔ (q.den = 1 ∧ 5 ≤ q ∧ q ≤ 60) := by
  unfold checkDurationSeconds
  split_ifs with h1 h2 h3 <;> simp_all

theorem checkFileNameLength_none (s : String) :
    checkFileNameLength s = none ↔ (1 ≤ s.length ∧ s.length ≤ 50) := by
  unfold checkFileNameLength
  split_ifs with h1 h2
  · simp_all
  · simp_all
  · simp_all; omega

theorem validateCreate_none (i : CreateInput) :
    validateCreate i = none ↔
      (checkUrl i.url = none ∧ i.startSeconds.den = 1 ∧ 0 ≤ i.startSeconds ∧
        i.durationSeconds.den = 1 ∧ 5 ≤ i.durationSeconds ∧ i.durationSeconds ≤ 60 ∧
        1 ≤ i.fileName.length ∧ i.fileName.length ≤ 50) := by
  unfold validateCreate
  constructor
  · intro h
    cases hu : checkUrl i.url with
    | some e => rw [hu] at h; exact absurd h (by simp)
    | none =>
      rw [hu] at h
      cases hs : checkStartSeconds i.startSeconds with
      | some e => rw [hs] at h; exact absurd h (by simp)
      | none =>
        rw [hs] at h
        cases hd : checkDurationSeconds i.durationSeconds with
        | some e => rw [hd] at h; exact absurd h (by simp)
        | none =>
          rw [hd] at h
          have h1 := (checkStartSeconds_none _).mp hs
          have h2 := (checkDurationSeconds_none _).mp hd
          have h3 := (checkFileNameLength_none _).mp h
          exact ⟨rfl, h1.1, h1.2, h2.1, h2.2.1, h2.2.2, h3.1, h3.2⟩
  · rintro ⟨hu, hs1, hs2, hd1, hd2, hd3, hf1, hf2⟩
    rw [hu, (checkStartSeconds_none _).mpr ⟨hs1, hs2⟩,
      (checkDurationSeconds_none _).mpr ⟨hd1, hd2, hd3⟩,
      (checkFileNameLength_none _).mpr ⟨hf1, hf2⟩]

theorem createRingtone_inserted_eq (input : CreateInput) (userId : String)
    (env : CreateEnv) (fs0 : List String) (r : RingtoneRow)
    (h : (createRingtone input userId env fs0).inserted = some r) :
    validateCreate input = none ∧
      r.startTime = input.startSeconds ∧
      r.endTime = input.startSeconds + input.durationSeconds ∧
      r.fileName = input.fileName ∧ r.userId = userId ∧
      r.downloadUrl = downloadUrlOf userId input.fileName ∧
      r.originalUrl = input.url := by
  unfold createRingtone at h
  cases hval : validateCreate input with
  | some e => rw [hval] at h; simp at h
  | none =>
    rw [hval] at h
    by_cases h1 : vdTruthyEndGt input.videoDuration
        (ratAdd input.startSeconds input.durationSeconds)
    · simp [h1] at h
    · by_cases h2 : vdTruthyStartGe input.videoDuration input.startSeconds
      · simp [h1, h2] at h
      · by_cases h3 : env.ytExit ≠ 0
        · simp [h1, h2, h3] at h
        · by_cases h4 : outputPathOf userId input.fileName ∈
              (if env.ytWrites then fsAdd fs0 (outputPathOf userId input.fileName) else fs0)
          · by_cases h5 : env.outSize = 0
            · simp [h1, h2, h3, h4, h5] at h
            · by_cases h6 : env.ffmpegExit ≠ 0
              · simp [h1, h2, h3, h4, h5, h6] at h
              · by_cases h7 : env.insertOk
                · simp [h1, h2, h3, h4, h5, h6, h7] at h
                  refine ⟨rfl, ?_, ?_, ?_, ?_, ?_, ?_⟩ <;>
                    simp [← h, ratAdd_eq_add]
                · simp [h1, h2, h3, h4, h5, h6, h7] at h
          · simp [h1, h2, h3, h4] at h

/-- Concrete create input of the end-to-end example of the spec. -/
def sampleInput : CreateInput :=
  { url := "https://valid.example/watch?v=abc", startSeconds := 10,
    durationSeconds := 30, fileName := "My Clip", videoDuration := none }

/-- Environment of a fully successful create request. -/
def okCreateEnv : CreateEnv :=
  { newId := "rt-1", now := 7, ytExit := 0, ytWrites := true, ytStderr := "",
    outSize := 2048, probeExit := 0, ffmpegExit := 0,
    ffmpegWroteTrimmedFile := false, finalProbeExit := 0, insertOk := true }

theorem fsRemove_eq_of_not_mem (files : List String) (p : String) (h : p ∉ files) :
    fsRemove files p = files := by
  unfold fsRemove
  apply List.filter_eq_self.mpr
  intro q hq
  simp only [decide_eq_true_eq]
  intro heq
  exact h (heq ▸ hq)

/-- A sample stored row used by the concrete instantiations. -/
def rowA : RingtoneRow :=
  { id := "r1", fileName := "song", originalUrl := "https://valid.example/watch?v=abc",
    startTime := 0, endTime := 10, downloadUrl := "/downloads/alice/song.mp3",
    audioFormat := "mp3", audioQuality := "192K", userId := "alice",
    createdAt := 0, updatedAt := 0 }

/-- Claim C5 (confirmed): for every update request with a schema-valid new
name and for every delete request, a missing ringtone id fails with the
NOT_FOUND error and an existing ringtone owned by another user fails with
the FORBIDDEN error; in all four failure cases the database and the file
list are returned unchanged. -/
theorem C5_theorem (db : List RingtoneRow) (files : List String)
    (id newName userId : String) (now : Nat)
    (hname : 1 ≤ newName.length ∧ newName.length ≤ 50) :
    (findRingtone db id = none →
      updateRingtone db files id newName userId now =
        { result := .error (.notFound "Ringtone not found"), db := db, files := files } ∧
      deleteRingtone db files id userId =
        { result := .error (.notFound "Ringtone not found"), db := db, files := files }) ∧
    (∀ r, findRingtone db id = some r → r.userId ≠ userId →
      updateRingtone db files id newName userId now =
        { result := .error (.forbidden "You can only update your own ringtones"),
          db := db, files := files } ∧
      deleteRingtone db files id userId =
        { result := .error (.forbidden "You can only delete your own ringtones"),
          db := db, files := files }) := by
  have hchk : checkFileNameLength newName = none := (checkFileNameLength_none _).mpr hname
  constructor
  · intro hfind
    constructor
    · simp [updateRingtone, hchk, hfind]
    · simp [deleteRingtone, hfind]
  · intro r hfind howner
    constructor
    · simp [updateRingtone, hchk, hfind, howner]
    · simp [deleteRingtone, hfind, howner]

/-- Witness for C5 at a concrete store: an absent id is NOT_FOUND and a
foreign caller is FORBIDDEN, leaving the store unchanged. -/
theorem C5_witness :
    findRingtone [rowA] "zzz" = none ∧
    updateRingtone [rowA] ["public/downloads/alice/song.mp3"] "zzz" "New" "alice" 3 =
      { result := .error (.notFound "Ringtone not found"), db := [rowA],
        files := ["public/downloads/alice/song.mp3"] } ∧
    findRingtone [rowA] "r1" = some rowA ∧ rowA.userId ≠ "bob" ∧
    deleteRingtone [rowA] ["public/downloads/alice/song.mp3"] "r1" "bob" =
      { result := .error (.forbidden "You can only delete your own ringtones"),
        db := [rowA], files := ["public/downloads/alice/song.mp3"] } := by
  have h := C5_theorem [rowA] ["public/downloads/alice/song.mp3"] "zzz" "New" "alice" 3
    (by decide)
  have h2 := C5_theorem [rowA] ["public/downloads/alice/song.mp3"] "r1" "New" "bob" 3
    (by decide)
  exact ⟨by decide, (h.1 (by decide)).1, by decide, by decide,
    (h2.2 rowA (by decide) (by decide)).2⟩

/-- Claim C8 (confirmed): a delete request by the owner of an existing
ringtone removes the database row and returns success; this holds whether
or not the backing file exists, and when the file is missing the swallowed
unlink failure leaves the file list unchanged while the request still
succeeds. -/
theorem C8_theorem (db : List RingtoneRow) (files : List String)
    (id userId : String) (r : RingtoneRow)
    (hfind : findRingtone db id = some r) (howner : r.userId = userId) :
    (deleteRingtone db files id userId).result = .ok true ∧
    (∀ row ∈ (deleteRingtone db files id userId).db, row.id ≠ id) ∧
    (deleteFilePathOf r.downloadUrl ∉ files →
      (deleteRingtone db files id userId).files = files) := by
  have hni : ¬ r.userId ≠ userId := by simp [howner]
  refine ⟨?_, ?_, ?_⟩
  · simp [deleteRingtone, hfind, hni]
  · intro row hrow
    simp only [deleteRingtone, hfind, if_neg hni] at hrow
    have := List.of_mem_filter hrow
    simpa using this
  · intro hmiss
    simp [deleteRingtone, hfind, hni, fsRemove_eq_of_not_mem files _ hmiss]

/-- Witness for C8 at a concrete store whose backing file is absent from
the file list: the row is removed and the request still succeeds. -/
theorem C8_witness :
    findRingtone [rowA] "r1" = some rowA ∧ rowA.userId = "alice" ∧
    (deleteRingtone [rowA] ["public/other.mp3"] "r1" "alice").result = .ok true ∧
    (deleteRingtone [rowA] ["public/other.mp3"] "r1" "alice").files =
      ["public/other.mp3"] := by
  have h := C8_theorem [rowA] ["public/other.mp3"] "r1" "alice" rowA
    (by decide) (by decide)
  exact ⟨by decide, by decide, h.1, h.2.2 (by decide)⟩

theorem findRingtone_update_db (db : List RingtoneRow) (id newName : String)
    (now : Nat) (r : RingtoneRow) (hfind : findRingtone db id = some r) :
    findRingtone (db.map (fun row =>
        if row.id = id then { row with fileName := newName, updatedAt := now }
        else row)) id =
      some { r with fileName := newName, updatedAt := now } := by
  induction db with
  | nil => simp [findRingtone] at hfind
  | cons a as ih =>
    by_cases h : a.id = id
    · have h1 : findRingtone (a :: as) id = some a := by
        simp [findRingtone, List.find?_cons_of_pos, h]
      rw [h1] at hfind
      injection hfind with hfind
      subst hfind
      simp [findRingtone, h]
    · have h1 : findRingtone (a :: as) id = findRingtone as id := by
        simp [findRingtone, List.find?_cons_of_neg, h]
      rw [h1] at hfind
      have := ih hfind
      simpa [findRingtone, h] using this

/-- Claim C10 (confirmed): a successful rename changes only fileName and
updatedAt — id, originalUrl, startTime, endTime, downloadUrl, audioFormat,
audioQuality, userId and createdAt keep their previous values and the file
list is untouched, so no file is renamed — and a delete performed after the
rename unlinks the file at the originally stored download URL. -/
theorem C10_theorem (db : List RingtoneRow) (files : List String)
    (id newName userId : String) (now : Nat) (r : RingtoneRow)
    (hfind : findRingtone db id = some r) (howner : r.userId = userId)
    (hname : 1 ≤ newName.length ∧ newName.length ≤ 50) :
    (updateRingtone db files id newName userId now).result = .ok true ∧
    (updateRingtone db files id newName userId now).files = files ∧
    (∃ r', findRingtone (updateRingtone db files id newName userId now).db id = some r' ∧
      r'.fileName = newName ∧ r'.updatedAt = now ∧
      r'.id = r.id ∧ r'.originalUrl = r.originalUrl ∧
      r'.startTime = r.startTime ∧ r'.endTime = r.endTime ∧
      r'.downloadUrl = r.downloadUrl ∧ r'.audioFormat = r.audioFormat ∧
      r'.audioQuality = r.audioQuality ∧ r'.userId = r.userId ∧
      r'.createdAt = r.createdAt) ∧
    (deleteRingtone (updateRingtone db files id newName userId now).db files id userId).files =
      fsRemove files (deleteFilePathOf r.downloadUrl) := by
  have hchk : checkFileNameLength newName = none := (checkFileNameLength_none _).mpr hname
  have hni : ¬ r.userId ≠ userId := by simp [howner]
  have hdb : (updateRingtone db files id newName userId now).db =
      db.map (fun row =>
        if row.id = id then { row with fileName := newName, updatedAt := now }
        else row) := by
    simp [updateRingtone, hchk, hfind, hni]
  have hfind' := findRingtone_update_db db id newName now r hfind
  refine ⟨?_, ?_, ?_, ?_⟩
  · simp [updateRingtone, hchk, hfind, hni]
  · simp [updateRingtone, hchk, hfind, hni]
  · exact ⟨{ r with fileName := newName, updatedAt := now }, by rw [hdb]; exact hfind',
      rfl, rfl, rfl, rfl, rfl, rfl, rfl, rfl, rfl, rfl, rfl⟩
  · rw [hdb]
    simp only [deleteRingtone, hfind']
    rw [if_neg hni]

/-- Witness for C10 at a concrete store: the rename succeeds, the file list
is untouched, and the subsequent delete unlinks the originally stored
path. -/
theorem C10_witness :
    (updateRingtone [rowA] ["public/downloads/alice/song.mp3"]
      "r1" "Renamed" "alice" 5).result = .ok true ∧
    (updateRingtone [rowA] ["public/downloads/alice/song.mp3"]
      "r1" "Renamed" "alice" 5).files = ["public/downloads/alice/song.mp3"] ∧
    (deleteRingtone (updateRingtone [rowA] ["public/downloads/alice/song.mp3"]
        "r1" "Renamed" "alice" 5).db
      ["public/downloads/alice/song.mp3"] "r1" "alice").files =
      fsRemove ["public/downloads/alice/song.mp3"] (deleteFilePathOf rowA.downloadUrl) := by
  have h := C10_theorem [rowA] ["public/downloads/alice/song.mp3"]
    "r1" "Renamed" "alice" 5 rowA (by decide) (by decide) (by decide)
  exact ⟨h.1, h.2.1, h.2.2.2⟩

theorem downloadUrlOf_myclip (userId : String) :
    downloadUrlOf userId "My Clip" = "/downloads/" ++ userId ++ "/My Clip.mp3" := by
  unfold downloadUrlOf
  rw [string_append_assoc ("/downloads/" ++ userId ++ "/") "My Clip" ".mp3",
    string_append_assoc ("/downloads/" ++ userId) "/" ("My Clip" ++ ".mp3")]
  have h : ("/" : String) ++ ("My Clip" ++ ".mp3") = "/My Clip.mp3" := by decide
  rw [h]

/-- Claim C7 (confirmed): the end-to-end example. For the input url
https://valid.example/watch?v=abc with startSeconds 10, durationSeconds 30
and fileName My Clip, when every subprocess succeeds (and the main router
stores the requested name directly, so no collision arises), create returns
the download URL /downloads/userId/My Clip.mp3 and inserts exactly one row
with startTime 10, endTime 40, fileName My Clip and that same download
URL. -/
theorem C7_theorem (userId : String) (fs0 : List String) :
    (createRingtone sampleInput userId okCreateEnv fs0).result =
      .ok ("/downloads/" ++ userId ++ "/My Clip.mp3") ∧
    (createRingtone sampleInput userId okCreateEnv fs0).inserted = some
      { id := "rt-1", fileName := "My Clip",
        originalUrl := "https://valid.example/watch?v=abc",
        startTime := 10, endTime := 40,
        downloadUrl := "/downloads/" ++ userId ++ "/My Clip.mp3",
        audioFormat := "mp3", audioQuality := "192K", userId := userId,
        createdAt := 7, updatedAt := 7 } := by
  have hval : validateCreate sampleInput = none := by decide
  have hend : ratAdd (10 : Rat) 30 = 40 := by decide
  unfold createRingtone
  rw [hval]
  simp only [sampleInput, okCreateEnv]
  simp [vdTruthyEndGt, vdTruthyStartGe, mem_fsAdd_self, downloadUrlOf_myclip, hend]

theorem updateRingtone_db_mem (db : List RingtoneRow) (files : List String)
    (id newName userId : String) (now : Nat) :
    ∀ r' ∈ (updateRingtone db files id newName userId now).db,
      ∃ r ∈ db, r'.startTime = r.startTime ∧ r'.endTime = r.endTime := by
  intro r' hr'
  unfold updateRingtone at hr'
  cases hchk : checkFileNameLength newName with
  | some e => simp only [hchk] at hr'; exact ⟨r', hr', rfl, rfl⟩
  | none =>
    simp only [hchk] at hr'
    cases hfind : findRingtone db id with
    | none => simp only [hfind] at hr'; exact ⟨r', hr', rfl, rfl⟩
    | some r =>
      simp only [hfind] at hr'
      by_cases howner : r.userId ≠ userId
      · rw [if_pos howner] at hr'
        exact ⟨r', hr', rfl, rfl⟩
      · rw [if_neg howner] at hr'
        simp only at hr'
        obtain ⟨rr, hrr, heq⟩ := List.mem_map.mp hr'
        refine ⟨rr, hrr, ?_, ?_⟩ <;> rw [← heq]
        · by_cases h : rr.id = id <;> simp [h]
        · by_cases h : rr.id = id <;> simp [h]

theorem deleteRingtone_db_mem (db : List RingtoneRow) (files : List String)
    (id userId : String) :
    ∀ r' ∈ (deleteRingtone db files id userId).db, r' ∈ db := by
  intro r' hr'
  unfold deleteRingtone at hr'
  cases hfind : findRingtone db id with
  | none => simp only [hfind] at hr'; exact hr'
  | some r =>
    simp only [hfind] at hr'
    by_cases howner : r.userId ≠ userId
    · rw [if_pos howner] at hr'
      exact hr'
    · rw [if_neg howner] at hr'
      simp only at hr'
      exact List.mem_of_mem_filter hr'

/-- Claim C6 (confirmed): every row ever present in a store reachable from
the empty store through create, update and delete operations of the main
router satisfies the invariant: end time after start time and a duration
of 5 to 60 seconds. Creation only inserts a row whose end time is the
validated start plus the validated duration, update rewrites only fileName
and updatedAt, and delete only removes rows. -/
theorem C6_theorem (ops : List StoreOp) :
    ∀ r ∈ ops.foldl applyStoreOp [], rowOk r := by
  suffices h : ∀ db, (∀ r ∈ db, rowOk r) → ∀ r ∈ ops.foldl applyStoreOp db, rowOk r by
    refine h [] ?_
    intro r hr
    simp at hr
  induction ops with
  | nil => intro db hdb r hr; exact hdb r hr
  | cons op ops ih =>
    intro db hdb r hr
    rw [List.foldl_cons] at hr
    refine ih (applyStoreOp db op) ?_ r hr
    intro r' hr'
    cases op with
    | create input userId env fs0 =>
      simp only [applyStoreOp] at hr'
      cases hins : (createRingtone input userId env fs0).inserted with
      | none => rw [hins] at hr'; exact hdb r' hr'
      | some row =>
        rw [hins] at hr'
        rcases List.mem_cons.mp hr' with rfl | hmem
        · obtain ⟨hval, hst, hend, -, -, -, -⟩ :=
            createRingtone_inserted_eq input userId env fs0 r' hins
          obtain ⟨-, -, -, -, hd5, hd60, -, -⟩ := (validateCreate_none input).mp hval
          refine ⟨?_, ?_, ?_⟩
          · rw [hst, hend]
            have : (0 : Rat) < input.durationSeconds := by linarith
            linarith
          · rw [hst, hend]
            have : input.startSeconds + input.durationSeconds - input.startSeconds =
              input.durationSeconds := by ring
            rw [this]
            exact hd5
          · rw [hst, hend]
            have : input.startSeconds + input.durationSeconds - input.startSeconds =
              input.durationSeconds := by ring
            rw [this]
            exact hd60
        · exact hdb r' hmem
    | update id newName userId now =>
      simp only [applyStoreOp] at hr'
      obtain ⟨r0, hr0, hst, hend⟩ :=
        updateRingtone_db_mem db [] id newName userId now r' hr'
      have h0 := hdb r0 hr0
      exact ⟨by rw [hst, hend]; exact h0.1, by rw [hst, hend]; exact h0.2.1,
        by rw [hst, hend]; exact h0.2.2⟩
    | del id userId =>
      simp only [applyStoreOp] at hr'
      exact hdb r' (deleteRingtone_db_mem db [] id userId r' hr')

/-- The row produced by a concrete successful create of sampleInput. -/
def sampleRow : RingtoneRow :=
  { id := "rt-1", fileName := "My Clip",
    originalUrl := "https://valid.example/watch?v=abc",
    startTime := 10, endTime := 40,
    downloadUrl := "/downloads/u/My Clip.mp3",
    audioFormat := "mp3", audioQuality := "192K", userId := "u",
    createdAt := 7, updatedAt := 7 }

/-- Witness for C6: the row inserted by a concrete successful create is in
the resulting store and satisfies the invariant. -/
theorem C6_witness :
    sampleRow ∈ ([StoreOp.create sampleInput "u" okCreateEnv []].foldl applyStoreOp []) ∧
    rowOk sampleRow :=
  ⟨by decide, C6_theorem [StoreOp.create sampleInput "u" okCreateEnv []] sampleRow (by decide)⟩

/-- A create input whose fileName contains a forbidden character but passes
the server-side schema. -/
def badCharInput : CreateInput :=
  { url := "https://valid.example/watch?v=abc", startSeconds := 0,
    durationSeconds := 10, fileName := "a<b", videoDuration := none }

/-- Counterexample to claim C1 as stated: the fileName with an angle bracket contains a
forbidden character, yet the server-side create validator accepts the
request and side effects follow — the output directory is created, the
downloader subprocess is spawned, and a row is inserted. The
character-class check exists only in the client form schema. -/
theorem C1_counterexample :
    hasInvalidFileNameChar "a<b" = true ∧
    validateCreate badCharInput = none ∧
    (createRingtone badCharInput "user-1" okCreateEnv []).spawnCalls ≠ [] ∧
    (createRingtone badCharInput "user-1" okCreateEnv []).dirCreated = true ∧
    (createRingtone badCharInput "user-1" okCreateEnv []).inserted.isSome = true := by
  refine ⟨by decide, by decide, by decide, by decide, by decide⟩

/-- Claim C1 (corrected): for every fileName of schema-valid length that
contains one of the forbidden characters, the client form schema
(formSchema of part_013) rejects it with the invalid-characters validation
error, while the server-side create schema accepts it — the server checks
only the length bounds 1 to 50, so the rejection happens before any side
effect only when the request goes through the client form. -/
theorem C1_amended_theorem (name : String)
    (h1 : 1 ≤ name.length) (h2 : name.length ≤ 50)
    (h3 : hasInvalidFileNameChar name = true) :
    formSchemaFileName name =
      some (.validation "fileName" "File name contains invalid characters") ∧
    checkFileNameLength name = none := by
  constructor
  · unfold formSchemaFileName
    rw [if_neg (by omega), if_neg (by omega), if_pos h3]
  · exact (checkFileNameLength_none name).mpr ⟨h1, h2⟩

/-- Witness for C1 at a concrete three-character name holding an angle bracket. -/
theorem C1_witness :
    formSchemaFileName "a<b" =
      some (.validation "fileName" "File name contains invalid characters") ∧
    checkFileNameLength "a<b" = none :=
  C1_amended_theorem "a<b" (by decide) (by decide) (by decide)

/-- Environment in which the ffmpeg trim fails after writing a partial
trimmed file; the downloader succeeded and left a nonempty output. -/
def ffmpegFailEnv : CreateEnv :=
  { okCreateEnv with
    ffmpegExit := 1, ffmpegWroteTrimmedFile := true,
    ytStderr := "simulated diagnostic" }

/-- Counterexample to claim C3 as stated: when the ffmpeg trim exits
non-zero after writing a partial trimmed file, the catch block unlinks only
outputPath, so the partially written trimmed file survives — not every
partially written output file is deleted. The request does fail with the
generic error and no row is inserted. -/
theorem C3_counterexample :
    (createRingtone sampleInput "user-1" ffmpegFailEnv []).result =
      .error genericCreateError ∧
    (createRingtone sampleInput "user-1" ffmpegFailEnv []).inserted = none ∧
    trimmedPathOf "user-1" "My Clip" ∈
      (createRingtone sampleInput "user-1" ffmpegFailEnv []).files := by
  refine ⟨by decide, by decide, by decide⟩

/-- Claim C3 (corrected): for every create execution that passes validation
and in which the downloader exits non-zero, the produced file is empty, or
the trim subprocess exits non-zero, no database row is inserted, the
primary output file is absent afterwards, and the request fails with the
generic constant message — which never contains the subprocess stderr
carried by the environment. A partially written trimmed file from a failed
trim is however not removed (see the counterexample). -/
theorem C3_amended_theorem (input : CreateInput) (userId : String)
    (env : CreateEnv) (fs0 : List String)
    (hval : validateCreate input = none)
    (hg1 : vdTruthyEndGt input.videoDuration
      (ratAdd input.startSeconds input.durationSeconds) = false)
    (hg2 : vdTruthyStartGe input.videoDuration input.startSeconds = false)
    (hfail : env.ytExit ≠ 0 ∨ env.outSize = 0 ∨ env.ffmpegExit ≠ 0) :
    (createRingtone input userId env fs0).inserted = none ∧
    (createRingtone input userId env fs0).result = .error genericCreateError ∧
    outputPathOf userId input.fileName ∉ (createRingtone input userId env fs0).files := by
  unfold createRingtone
  rw [hval]
  simp only [hg1, hg2, Bool.false_eq_true, if_false]
  by_cases h3 : env.ytExit ≠ 0
  · simp [h3, not_mem_fsRemove_self]
  · simp only [h3, if_false]
    by_cases h4 : outputPathOf userId input.fileName ∈
        (if env.ytWrites then fsAdd fs0 (outputPathOf userId input.fileName) else fs0)
    · by_cases h5 : env.outSize = 0
      · simp [h3, h4, h5, not_mem_fsRemove_self]
      · by_cases h6 : env.ffmpegExit ≠ 0
        · simp [h3, h4, h5, h6, not_mem_fsRemove_self]
        · exfalso
          rcases hfail with h | h | h
          · exact h3 h
          · exact h5 h
          · exact h6 h
    · simp [h3, h4, not_mem_fsRemove_self]

/-- Witness for C3 at the concrete failing environment. -/
theorem C3_witness :
    (createRingtone sampleInput "user-1" ffmpegFailEnv []).inserted = none ∧
    (createRingtone sampleInput "user-1" ffmpegFailEnv []).result =
      .error genericCreateError ∧
    outputPathOf "user-1" "My Clip" ∉
      (createRingtone sampleInput "user-1" ffmpegFailEnv []).files :=
  C3_amended_theorem sampleInput "user-1" ffmpegFailEnv [] (by decide) (by decide)
    (by decide) (Or.inr (Or.inr (by decide)))

theorem checkUrl_client (u : String) (e : RtError) (h : checkUrl u = some e) :
    e.isClientError = true := by
  unfold checkUrl at h
  split_ifs at h
  cases h
  rfl

theorem checkStartSeconds_client (q : Rat) (e : RtError)
    (h : checkStartSeconds q = some e) : e.isClientError = true := by
  unfold checkStartSeconds at h
  split_ifs at h <;> (cases h; rfl)

theorem checkDurationSeconds_client (q : Rat) (e : RtError)
    (h : checkDurationSeconds q = some e) : e.isClientError = true := by
  unfold checkDurationSeconds at h
  split_ifs at h <;> (cases h; rfl)

theorem checkFileNameLength_client (s : String) (e : RtError)
    (h : checkFileNameLength s = some e) : e.isClientError = true := by
  unfold checkFileNameLength at h
  split_ifs at h <;> (cases h; rfl)

theorem validateCreate_some_isClientError (i : CreateInput) (e : RtError)
    (h : validateCreate i = some e) : e.isClientError = true := by
  unfold validateCreate at h
  cases hu : checkUrl i.url with
  | some e' =>
    rw [hu] at h
    cases h
    exact checkUrl_client i.url _ hu
  | none =>
    rw [hu] at h
    cases hs : checkStartSeconds i.startSeconds with
    | some e' =>
      rw [hs] at h
      cases h
      exact checkStartSeconds_client i.startSeconds _ hs
    | none =>
      rw [hs] at h
      cases hd : checkDurationSeconds i.durationSeconds with
      | some e' =>
        rw [hd] at h
        cases h
        exact checkDurationSeconds_client i.durationSeconds _ hd
      | none =>
        rw [hd] at h
        exact checkFileNameLength_client i.fileName e h

/-- The conditions of claim C4, with the videoDuration bound corrected to
apply only when the supplied videoDuration is nonzero (truthy): startSeconds
an integer at least 0, durationSeconds an integer in 5 to 60, fileName of
length 1 to 50, and end = start + duration at most any supplied nonzero
videoDuration. -/
def createInputOk (i : CreateInput) : Prop :=
  i.startSeconds.den = 1 ∧ 0 ≤ i.startSeconds ∧
  i.durationSeconds.den = 1 ∧ 5 ≤ i.durationSeconds ∧ i.durationSeconds ≤ 60 ∧
  1 ≤ i.fileName.length ∧ i.fileName.length ≤ 50 ∧
  ∀ d, i.videoDuration = some d → d ≠ 0 →
    i.startSeconds + i.durationSeconds ≤ d

/-- A create input supplying videoDuration 0, which is falsy in JavaScript,
so the handler skips the end-time bound check. -/
def vd0Input : CreateInput :=
  { url := "https://valid.example/watch?v=abc", startSeconds := 10,
    durationSeconds := 30, fileName := "My Clip", videoDuration := some 0 }

/-- Counterexample to claim C4 as stated: the caller supplies videoDuration
0 and endSeconds = 40 exceeds it, yet the request is not rejected — the
truthiness guard on videoDuration skips the check for the value 0, the
subprocesses run, and the request succeeds. -/
theorem C4_counterexample :
    vd0Input.videoDuration = some 0 ∧
    ¬ (vd0Input.startSeconds + vd0Input.durationSeconds ≤ (0 : Rat)) ∧
    (createRingtone vd0Input "user-1" okCreateEnv []).spawnCalls ≠ [] ∧
    (createRingtone vd0Input "user-1" okCreateEnv []).result =
      .ok "/downloads/user-1/My Clip.mp3" := by
  refine ⟨rfl, ?_, by decide, by decide⟩
  simp only [vd0Input]
  norm_num

/-- Claim C4 (corrected): every create request violating the validation
conditions — with the videoDuration bound applying only to a nonzero
(truthy) supplied videoDuration — is rejected before any side effect: no
subprocess is spawned, no directory is created, no row is inserted, the
file list is untouched, and the error is a client-correctable validation
or bad-request error. -/
theorem C4_amended_theorem (i : CreateInput) (userId : String) (env : CreateEnv)
    (fs0 : List String) (h : ¬ createInputOk i) :
    (createRingtone i userId env fs0).spawnCalls = [] ∧
    (createRingtone i userId env fs0).dirCreated = false ∧
    (createRingtone i userId env fs0).inserted = none ∧
    (createRingtone i userId env fs0).files = fs0 ∧
    ∃ e, (createRingtone i userId env fs0).result = .error e ∧
      e.isClientError = true := by
  cases hval : validateCreate i with
  | some e =>
    have hce := validateCreate_some_isClientError i e hval
    unfold createRingtone
    rw [hval]
    exact ⟨rfl, rfl, rfl, rfl, e, rfl, hce⟩
  | none =>
    obtain ⟨hu, h1, h2, h3, h4, h5, h6, h7⟩ := (validateCreate_none i).mp hval
    have hvd : ∃ d, i.videoDuration = some d ∧ d ≠ 0 ∧
        d < i.startSeconds + i.durationSeconds := by
      by_contra hno
      push_neg at hno
      apply h
      refine ⟨h1, h2, h3, h4, h5, h6, h7, ?_⟩
      intro d hd hd0
      exact hno d hd hd0
    obtain ⟨d, hd, hd0, hlt⟩ := hvd
    have hg1 : vdTruthyEndGt i.videoDuration
        (ratAdd i.startSeconds i.durationSeconds) = true := by
      rw [hd]
      unfold vdTruthyEndGt
      rw [ratAdd_eq_add]
      simp [hd0, hlt]
    unfold createRingtone
    rw [hval]
    simp only [hg1, if_true]
    refine ⟨trivial, trivial, trivial, trivial, ?_⟩
    exact ⟨.badRequest "End time cannot exceed video duration", rfl, rfl⟩

/-- Witness for C4 at a concrete violating input (duration 3 is below the
minimum of 5). -/
theorem C4_witness :
    (createRingtone
      { url := "https://valid.example/watch?v=abc", startSeconds := 0,
        durationSeconds := 3, fileName := "My Clip", videoDuration := none }
      "user-1" okCreateEnv []).spawnCalls = [] ∧
    (createRingtone
      { url := "https://valid.example/watch?v=abc", startSeconds := 0,
        durationSeconds := 3, fileName := "My Clip", videoDuration := none }
      "user-1" okCreateEnv []).dirCreated = false ∧
    (createRingtone
      { url := "https://valid.example/watch?v=abc", startSeconds := 0,
        durationSeconds := 3, fileName := "My Clip", videoDuration := none }
      "user-1" okCreateEnv []).inserted = none ∧
    (createRingtone
      { url := "https://valid.example/watch?v=abc", startSeconds := 0,
        durationSeconds := 3, fileName := "My Clip", videoDuration := none }
      "user-1" okCreateEnv []).files = [] ∧
    ∃ e, (createRingtone
      { url := "https://valid.example/watch?v=abc", startSeconds := 0,
        durationSeconds := 3, fileName := "My Clip", videoDuration := none }
      "user-1" okCreateEnv []).result = .error e ∧ e.isClientError = true :=
  C4_amended_theorem _ "user-1" okCreateEnv []
    (fun hc => absurd hc.2.2.2.1 (by decide))

/-- A successful metadata-fetch environment. -/
def infoEnvOk : InfoEnv :=
  { exitCode := 0, stdout := "Title\n212\nUploader\nhttps://thumb.example/t.jpg",
    stderr := "" }

/-- Counterexample to claim C9 as stated: at concrete inputs, the spawn
option records of both the metadata-only fetch and the extraction pipeline
carry no timeout at all — every invocation has the none timeout option, so
no invocation is bounded by a timeout after which the request would fail. -/
theorem C9_counterexample :
    ((getVideoInfo "https://valid.example/watch?v=abc" infoEnvOk).spawnCalls.map
      (fun c => c.timeout)) = [none] ∧
    ((createRingtone sampleInput "user-1" okCreateEnv []).spawnCalls.map
      (fun c => c.timeout)) = [none, none, none, none] := by
  refine ⟨by decide, by decide⟩

/-- Claim C9 (corrected): every subprocess invocation of getVideoInfo and
of createRingtone pipes stdout and stderr and sets no timeout option; the
handlers await the exit of the subprocess with no bound, so a request fails
only when the subprocess itself exits non-zero, never by timing out. -/
theorem C9_amended_theorem :
    (∀ url env, ((getVideoInfo url env).spawnCalls.all
      (fun c => c.timeout.isNone && c.stdoutPipe && c.stderrPipe)) = true) ∧
    (∀ input userId env fs0,
      ((createRingtone input userId env fs0).spawnCalls.all
        (fun c => c.timeout.isNone && c.stdoutPipe && c.stderrPipe)) = true) := by
  constructor
  · intro url env
    unfold getVideoInfo
    cases hu : checkUrl url with
    | some e => simp
    | none =>
      by_cases h : env.exitCode ≠ 0 <;> simp [h, pipedSpawn]
  · intro input userId env fs0
    unfold createRingtone
    cases hval : validateCreate input with
    | some e => simp
    | none =>
      by_cases h1 : vdTruthyEndGt input.videoDuration
          (ratAdd input.startSeconds input.durationSeconds)
      · simp [h1]
      · by_cases h2 : vdTruthyStartGe input.videoDuration input.startSeconds
        · simp [h1, h2]
        · by_cases h3 : env.ytExit ≠ 0
          · simp [h1, h2, h3, pipedSpawn]
          · by_cases h4 : outputPathOf userId input.fileName ∈
                (if env.ytWrites then fsAdd fs0 (outputPathOf userId input.fileName)
                 else fs0)
            · by_cases h5 : env.outSize = 0
              · simp [h1, h2, h3, h4, h5, pipedSpawn]
              · by_cases h6 : env.ffmpegExit ≠ 0
                · simp [h1, h2, h3, h4, h5, h6, pipedSpawn]
                · by_cases h7 : env.insertOk
                  · simp [h1, h2, h3, h4, h5, h6, h7, pipedSpawn]
                  · simp [h1, h2, h3, h4, h5, h6, h7, pipedSpawn]
            · simp [h1, h2, h3, h4, pipedSpawn]

theorem createRingtoneV11_success_db (db : List RingtoneRow)
    (input : CreateInputV11) (userId : String) (env : CreateEnv)
    (fs0 : List String)
    (hval : validateCreateV11 input = none)
    (hg1 : vdTruthyEndGt input.videoDuration
      (ratAdd input.startSeconds input.durationSeconds) = false)
    (hg2 : vdTruthyStartGe input.videoDuration input.startSeconds = false)
    (hyt : env.ytExit = 0) (hins : env.insertOk = true) :
    ∃ row, (createRingtoneV11 db input userId env fs0).db = row :: db ∧
      row.fileName = generateUniqueFileName input.fileName (ownerFileNames db userId) ∧
      row.userId = userId := by
  unfold createRingtoneV11
  rw [hval]
  simp only [hg1, hg2, Bool.false_eq_true, if_false]
  have h3 : ¬ env.ytExit ≠ 0 := by omega
  rw [if_neg h3]
  rw [if_pos hins]
  exact ⟨_, rfl, rfl, rfl⟩

theorem ownerFileNames_cons_owner (db : List RingtoneRow) (row : RingtoneRow)
    (userId : String) (h : row.userId = userId) :
    ownerFileNames (row :: db) userId = row.fileName :: ownerFileNames db userId := by
  unfold ownerFileNames
  rw [List.filter_cons_of_pos (by simp [h])]
  rfl

/-- Claim C2 (confirmed, against the part_011 variant that defines
generateUniqueFileName): a successful create stores the filename computed
by generateUniqueFileName over the owner's existing filenames; when the
requested base name has no case-insensitive collision it is stored
unchanged, when it collides the stored name is the base name with the
smallest numeric suffix whose lowering is not already taken (probing
base 1, base 2, and so on), and a second successful create with the same
base name by the same owner therefore stores a filename different from the
first. -/
theorem C2_theorem (db : List RingtoneRow) (input : CreateInputV11)
    (userId : String) (env env2 : CreateEnv) (fs0 fs1 : List String)
    (hval : validateCreateV11 input = none)
    (hg1 : vdTruthyEndGt input.videoDuration
      (ratAdd input.startSeconds input.durationSeconds) = false)
    (hg2 : vdTruthyStartGe input.videoDuration input.startSeconds = false)
    (hyt : env.ytExit = 0) (hins : env.insertOk = true)
    (hyt2 : env2.ytExit = 0) (hins2 : env2.insertOk = true) :
    ∃ row, (createRingtoneV11 db input userId env fs0).db = row :: db ∧
      row.fileName = generateUniqueFileName input.fileName (ownerFileNames db userId) ∧
      (jsToLower input.fileName ∉ (ownerFileNames db userId).map jsToLower →
        row.fileName = input.fileName) ∧
      (jsToLower input.fileName ∈ (ownerFileNames db userId).map jsToLower →
        ∃ k, 1 ≤ k ∧ row.fileName = uniqueCandidate input.fileName k ∧
          jsToLower (uniqueCandidate input.fileName k) ∉
            (ownerFileNames db userId).map jsToLower ∧
          ∀ j, 1 ≤ j → j < k →
            jsToLower (uniqueCandidate input.fileName j) ∈
              (ownerFileNames db userId).map jsToLower) ∧
      ∃ row2, (createRingtoneV11 (row :: db) input userId env2 fs1).db =
          row2 :: row :: db ∧
        row2.fileName ≠ row.fileName := by
  obtain ⟨row, hdb, hname, howner⟩ :=
    createRingtoneV11_success_db db input userId env fs0 hval hg1 hg2 hyt hins
  refine ⟨row, hdb, hname, ?_, ?_, ?_⟩
  · intro hfree
    rw [hname]
    exact generateUniqueFileName_no_collision _ _ hfree
  · intro hcoll
    obtain ⟨k, hk1, hk2, hk3, hk4⟩ :=
      generateUniqueFileName_collision input.fileName (ownerFileNames db userId) hcoll
    exact ⟨k, hk1, by rw [hname, hk2], hk3, hk4⟩
  · obtain ⟨row2, hdb2, hname2, -⟩ :=
      createRingtoneV11_success_db (row :: db) input userId env2 fs1 hval hg1 hg2
        hyt2 hins2
    refine ⟨row2, hdb2, ?_⟩
    rw [hname2, ownerFileNames_cons_owner db row userId howner]
    exact generateUniqueFileName_ne_existing input.fileName
      (row.fileName :: ownerFileNames db userId) row.fileName
      (List.mem_cons_self _ _)

/-- A sample create input for the part_011 variant whose requested name
collides case-insensitively with the stored name of rowA. -/
def sampleInputV11 : CreateInputV11 :=
  { url := "https://valid.example/watch?v=abc", startSeconds := 10,
    durationSeconds := 30, fileName := "Song", videoDuration := none,
    audioFormat := "mp3", audioQuality := "192K" }

/-- Witness for C2 at a concrete store: rowA of owner alice already holds
the name song, so creating Song for alice goes through the collision
branch, and the two sequential creates store distinct filenames. -/
theorem C2_witness :
    ∃ row, (createRingtoneV11 [rowA] sampleInputV11 "alice" okCreateEnv []).db =
        row :: [rowA] ∧
      row.fileName =
        generateUniqueFileName sampleInputV11.fileName (ownerFileNames [rowA] "alice") ∧
      (jsToLower sampleInputV11.fileName ∉
          (ownerFileNames [rowA] "alice").map jsToLower →
        row.fileName = sampleInputV11.fileName) ∧
      (jsToLower sampleInputV11.fileName ∈
          (ownerFileNames [rowA] "alice").map jsToLower →
        ∃ k, 1 ≤ k ∧ row.fileName = uniqueCandidate sampleInputV11.fileName k ∧
          jsToLower (uniqueCandidate sampleInputV11.fileName k) ∉
            (ownerFileNames [rowA] "alice").map jsToLower ∧
          ∀ j, 1 ≤ j → j < k →
            jsToLower (uniqueCandidate sampleInputV11.fileName j) ∈
              (ownerFileNames [rowA] "alice").map jsToLower) ∧
      ∃ row2, (createRingtoneV11 (row :: [rowA]) sampleInputV11 "alice" okCreateEnv []).db =
          row2 :: row :: [rowA] ∧
        row2.fileName ≠ row.fileName :=
  C2_theorem [rowA] sampleInputV11 "alice" okCreateEnv okCreateEnv [] []
    (by decide) (by decide) (by decide) (by decide) (by decide) (by decide) (by decide)
